import Mathlib

/-!
Shallow embedding of the usage-to-impact aggregation pipeline of
`src/Consolidated/consolidated1.py` (the "Azure GenAI Eco-Monitor" dashboard).

The embedding models the tabular rows (`df_raw`, `df_cost`) as Lean lists of
structures, numeric columns as exact rationals (`ℚ`), and the per-row closures
(`calc_kwh`, `convert_to_sek`, the usage-type classification in
`discover_resources_and_deployments`, the `ProjectName` mapping) as pure Lean
functions.  Pandas group-by / merge operations are modelled as list
aggregations over deduplicated key lists.
-/

namespace EcoMonitor

/-- One row of `df_raw` (a usage-metric sample), keeping only the columns the
aggregation reads: `Project`, `Model`, `Type`, `Metric`, `Value`. -/
structure UsageRow where
  project : String
  model : String
  type : String
  metric : String
  value : ℚ

/-- One row of `df_cost` (a daily cost sample), keeping the columns read by
the cost processing: `ResourceId`, `ActualCost`, `OriginalCurrency`. -/
structure CostRow where
  resourceId : String
  actualCost : ℚ
  originalCurrency : String

/-- One entry of `final_inventory`, keeping the keys read by the cost mapping:
`id` and the project label (`item.get('project', item['group'])`; in this
script every inventory item carries a `project` key, so the label is that
value). -/
structure InvItem where
  id : String
  project : String

/-- Python dict `d.get(k, default)` over a literal-keyed table. -/
def dictGet (d : List (String × ℚ)) (k : String) (default : ℚ) : ℚ :=
  (List.lookup k d).getD default

/-- Table `REGION_INTENSITY` (gCO2/kWh). -/
def REGION_INTENSITY : List (String × ℚ) :=
  [("Global Average", 475), ("US East (Virginia)", 350),
   ("US West (California)", 200), ("Europe (Ireland)", 280),
   ("Europe (Sweden)", 20), ("Asia (average)", 550)]

/-- Table `CARBON_FACTORS` (kWh per unit). -/
def CARBON_FACTORS : List (String × ℚ) :=
  [("standard_text", 0.0004), ("reasoning_text", 0.0015),
   ("image_gen", 0.05), ("embedding", 0.0001)]

/-- Constant `GRAMS_CO2_PER_TREE_DAY = 57.5`. -/
def GRAMS_CO2_PER_TREE_DAY : ℚ := 57.5

/-- Static table `EXCHANGE_RATES_TO_SEK`. -/
def EXCHANGE_RATES_TO_SEK : List (String × ℚ) :=
  [("USD", 10.8), ("EUR", 11.5), ("GBP", 13.5), ("SEK", 1.0)]

/-- Function `calc_kwh` (the row-wise closure in the processing section).  The Python
direct dict indexings `CARBON_FACTORS['image_gen']` etc. are modelled as
lookups with default `0`; every indexed key is present in the table, so the
default is never exercised. -/
def calc_kwh (row : UsageRow) : ℚ :=
  let factor := dictGet CARBON_FACTORS "standard_text" 0.0004
  if row.type = "image" then
    row.value * dictGet CARBON_FACTORS "image_gen" 0
  else
    let factor :=
      if row.type = "reasoning" then dictGet CARBON_FACTORS "reasoning_text" 0
      else if row.type = "embedding" then dictGet CARBON_FACTORS "embedding" 0
      else factor
    (row.value / 1000) * factor

/-- The `Carbon_g` column: `df_raw['kWh'] * grid_intensity`. -/
def carbon_g (row : UsageRow) (grid_intensity : ℚ) : ℚ :=
  calc_kwh row * grid_intensity

/-- Total `total_kwh = df_raw['kWh'].sum()`. -/
def total_kwh (rows : List UsageRow) : ℚ :=
  (rows.map calc_kwh).sum

/-- Total `total_co2 = df_raw['Carbon_g'].sum()`. -/
def total_co2 (rows : List UsageRow) (grid_intensity : ℚ) : ℚ :=
  (rows.map (fun r => carbon_g r grid_intensity)).sum

/-- Quotient `tree_days = total_co2 / GRAMS_CO2_PER_TREE_DAY`. -/
def tree_days (rows : List UsageRow) (grid_intensity : ℚ) : ℚ :=
  total_co2 rows grid_intensity / GRAMS_CO2_PER_TREE_DAY

/-- Test `leads pat s` : does `s` start with `pat` (character lists)? -/
def leads : List Char → List Char → Bool
  | [], _ => true
  | _ :: _, [] => false
  | p :: ps, c :: cs => p == c && leads ps cs

/-- Test `hasSub pat s` : Python's substring test `pat in s` over character
lists (contiguous substring containment). -/
def hasSub (pat : List Char) : List Char → Bool
  | [] => pat.isEmpty
  | c :: rest => leads pat (c :: rest) || hasSub pat rest

/-- ASCII lower-casing of one character, modelling Python `str.lower()` on
the ASCII model names this dashboard handles. -/
def charLower (c : Char) : Char :=
  if 65 ≤ c.toNat && c.toNat ≤ 90 then Char.ofNat (c.toNat + 32) else c

/-- Map `py_lower` : Python `str.lower()` over the character list (ASCII). -/
def py_lower (s : List Char) : List Char :=
  s.map charLower

/-- The `m_type` classification applied to an (already lower-cased) model
name, from `discover_resources_and_deployments`:
`"dall" → image`, `"o1"/"reasoning" → reasoning`, `"embedding" → embedding`,
else `text`. -/
def classify_chars (m : List Char) : String :=
  if hasSub "dall".data m then "image"
  else if hasSub "o1".data m || hasSub "reasoning".data m then "reasoning"
  else if hasSub "embedding".data m then "embedding"
  else "text"

/-- Classification `classifyUsageType`: lower-case the model name
(`m_name = d['model_name'].lower()`), then classify. -/
def classify_type (model_name : String) : String :=
  classify_chars (py_lower model_name.data)

/-- Function `convert_to_sek` (the row-wise closure in the cost processing). -/
def convert_to_sek (row : CostRow) (usd_rate : ℚ) : ℚ :=
  let curr := row.originalCurrency
  let val := row.actualCost
  if curr = "SEK" then val
  else if curr = "USD" then val * usd_rate
  else if curr = "EUR" then val * dictGet EXCHANGE_RATES_TO_SEK "EUR" 11.5
  else val * dictGet EXCHANGE_RATES_TO_SEK curr 1.0

/-- Total `total_cost_sek`: initialised to `0.0`; when `df_cost` is nonempty it is
the sum of the converted `CostSEK` column. -/
def total_cost_sek (costs : List CostRow) (usd_rate : ℚ) : ℚ :=
  if costs.isEmpty then 0
  else (costs.map (fun c => convert_to_sek c usd_rate)).sum

/-- Python `x.split('/')` over the character list: splits on every `'/'`,
keeping empty segments (so a leading `'/'` yields a leading empty segment). -/
def splitSlash : List Char → List (List Char)
  | [] => [[]]
  | c :: rest =>
    let r := splitSlash rest
    if c = '/' then [] :: r
    else
      match r with
      | [] => [[c]]
      | h :: t => (c :: h) :: t

/-- The fallback extraction
`x.split('/')[4] if isinstance(x, str) and len(x.split('/')) > 4 else 'Unknown'`
(resource group is the fourth slash-delimited segment of a resource id). -/
def rg_segment (rid : String) : String :=
  let parts := splitSlash rid.data
  if 4 < parts.length then String.mk (parts.getD 4 []) else "Unknown"

/-- Mapping `id_to_proj`, the dict comprehension over `final_inventory` keyed by `item['id']` with value `item['project']`. -/
def id_to_proj (inv : List InvItem) : List (String × String) :=
  inv.map (fun i => (i.id, i.project))

/-- The `ProjectName` column of `df_cost`:
if `final_inventory` is nonempty, `map(id_to_proj).fillna('Unknown')`;
otherwise the fourth-segment fallback extraction.  (The dead
`'Project' in df_cost.columns` branch never fires in this script: neither
the demo nor the Azure cost frame carries a `Project` column.) -/
def cost_project_name (inv : List InvItem) (rid : String) : String :=
  if inv.isEmpty then rg_segment rid
  else (List.lookup rid (id_to_proj inv)).getD "Unknown"

/-- Frame `df_cost` after the processing step: each row carries its `ProjectName`
and converted `CostSEK` column (`(ProjectName, CostSEK)` pairs). -/
def cost_named (inv : List InvItem) (costs : List CostRow) (usd_rate : ℚ) :
    List (String × ℚ) :=
  costs.map (fun c => (cost_project_name inv c.resourceId, convert_to_sek c usd_rate))

/-- The distinct keys of a pandas `groupby` over a key column, modelled as
the deduplicated key list (pandas sorts the keys; key order is irrelevant to
every aggregation property below). -/
def group_keys (rows : List UsageRow) (key : UsageRow → String) : List String :=
  (rows.map key).dedup

/-- The per-group sum of a numeric column under a `groupby`. -/
def group_sum (rows : List UsageRow) (key : UsageRow → String) (val : UsageRow → ℚ)
    (k : String) : ℚ :=
  ((rows.filter (fun r => decide (key r = k))).map val).sum

/-- One row of `df_model = df_raw.groupby("Model")[["Carbon_g", "Value"]].sum()`:
`(Model, Carbon_g, Value)`.  (The descending sort by `Carbon_g` is a display
convention and is not modelled.) -/
def df_model (rows : List UsageRow) (grid_intensity : ℚ) : List (String × ℚ × ℚ) :=
  (group_keys rows (fun r => r.model)).map (fun m =>
    (m, group_sum rows (fun r => r.model) (fun r => carbon_g r grid_intensity) m,
     group_sum rows (fun r => r.model) (fun r => r.value) m))

/-- One row of `df_usage_agg` (per-project usage aggregation). -/
structure UsageAgg where
  proj : String
  carbonTotal : ℚ
  inputTokens : ℚ
  outputTokens : ℚ

/-- The aggregation row of `df_usage_agg` for project `p`:
`Carbon_Total` sums `Carbon_g`; `Input_Tokens` sums `Value` over the rows
with `Metric == 'ProcessedPromptTokens'`; `Output_Tokens` sums `Value` over
the rows with `Metric` in `['GeneratedTokens', 'GeneratedCompletionTokens']`. -/
def usage_agg_row (rows : List UsageRow) (grid_intensity : ℚ) (p : String) : UsageAgg where
  proj := p
  carbonTotal :=
    ((rows.filter (fun r => decide (r.project = p))).map
      (fun r => carbon_g r grid_intensity)).sum
  inputTokens :=
    (((rows.filter (fun r => decide (r.project = p))).filter
        (fun r => decide (r.metric = "ProcessedPromptTokens"))).map
      (fun r => r.value)).sum
  outputTokens :=
    (((rows.filter (fun r => decide (r.project = p))).filter
        (fun r => decide (r.metric = "GeneratedTokens" ∨
          r.metric = "GeneratedCompletionTokens"))).map
      (fun r => r.value)).sum

/-- Frame `df_usage_agg = df_raw.groupby('Project').agg(...)`. -/
def df_usage_agg (rows : List UsageRow) (grid_intensity : ℚ) : List UsageAgg :=
  ((rows.map (fun r => r.project)).dedup).map (usage_agg_row rows grid_intensity)

/-- One row of `df_cost_agg` (per-project cost aggregation). -/
structure CostAgg where
  projName : String
  costSEK : ℚ

/-- Frame `df_cost_agg = df_cost.groupby('ProjectName').agg(Cost_SEK=('CostSEK','sum'))`
(built only when `df_cost` is nonempty; on an empty cost frame it is the
empty frame, which the merge step below branches on). -/
def df_cost_agg (inv : List InvItem) (costs : List CostRow) (usd_rate : ℚ) :
    List CostAgg :=
  (((cost_named inv costs usd_rate).map Prod.fst).dedup).map (fun p =>
    ⟨p, (((cost_named inv costs usd_rate).filter (fun c => decide (c.1 = p))).map
      Prod.snd).sum⟩)

/-- One row of `df_project_summary`. -/
structure ProjSummary where
  projName : String
  costSEK : ℚ
  carbonTotal : ℚ
  inputTokens : ℚ
  outputTokens : ℚ

/-- Frame `df_project_summary`: when `df_cost_agg` is nonempty, the outer merge
`pd.merge(df_cost_agg, df_usage_agg, left_on='ProjectName', right_on='Project',
how='outer')` followed by `ProjectName.fillna(Project)` and `fillna(0)`;
otherwise `df_usage_agg` with a constant `Cost_SEK = 0.0` column.  Both sides
of the merge have unique keys (group-by outputs), so the outer merge is: each
cost row joined with its at-most-one matching usage row (missing usage side
zero-filled), plus the usage rows with no matching cost row (cost side
zero-filled, project name taken from the usage key). -/
def df_project_summary (inv : List InvItem) (rows : List UsageRow)
    (costs : List CostRow) (grid_intensity usd_rate : ℚ) : List ProjSummary :=
  let ua := df_usage_agg rows grid_intensity
  let ca := df_cost_agg inv costs usd_rate
  if ca.isEmpty then
    ua.map (fun u => ⟨u.proj, 0, u.carbonTotal, u.inputTokens, u.outputTokens⟩)
  else
    (ca.map (fun c =>
      match ua.find? (fun u => decide (u.proj = c.projName)) with
      | some u => ⟨c.projName, c.costSEK, u.carbonTotal, u.inputTokens, u.outputTokens⟩
      | none => ⟨c.projName, c.costSEK, 0, 0, 0⟩)) ++
    ((ua.filter (fun u =>
        (ca.find? (fun c => decide (c.projName = u.proj))).isNone)).map
      (fun u => ⟨u.proj, 0, u.carbonTotal, u.inputTokens, u.outputTokens⟩))

/-! ## Shared aggregation lemmas -/

lemma sum_map_const_zero (ks : List String) : (ks.map (fun _ => (0 : ℚ))).sum = 0 := by
  induction ks with
  | nil => simp
  | cons k ks ih => simp [ih]

lemma sum_groups_cons {α : Type} (val : α → ℚ) (key : α → String) (x : α) (t : List α)
    (ks : List String) (hnd : ks.Nodup) (hx : key x ∈ ks) :
    (ks.map (fun k => (((x :: t).filter (fun r => decide (key r = k))).map val).sum)).sum =
      val x + (ks.map (fun k => ((t.filter (fun r => decide (key r = k))).map val).sum)).sum := by
  induction ks with
  | nil => simp at hx
  | cons k0 ks ih =>
    rcases List.nodup_cons.mp hnd with ⟨hk0, hnd'⟩
    by_cases hkey : key x = k0
    · have htail : ∀ k ∈ ks,
          (((x :: t).filter (fun r => decide (key r = k))).map val).sum =
            ((t.filter (fun r => decide (key r = k))).map val).sum := by
        intro k hk
        have hne : ¬ key x = k := by
          intro h
          rw [hkey] at h
          exact hk0 (h ▸ hk)
        simp [List.filter_cons, hne]
      rw [List.map_cons, List.sum_cons, List.map_cons, List.sum_cons,
        List.map_congr_left htail]
      simp [List.filter_cons, hkey]
      ring
    · have hx' : key x ∈ ks := by
        rcases List.mem_cons.mp hx with h | h
        · exact absurd h hkey
        · exact h
      rw [List.map_cons, List.sum_cons, List.map_cons, List.sum_cons, ih hnd' hx']
      simp [List.filter_cons, hkey]
      ring

lemma sum_groups_eq_total {α : Type} (val : α → ℚ) (key : α → String) (l : List α)
    (ks : List String) (hnd : ks.Nodup) (hcov : ∀ x ∈ l, key x ∈ ks) :
    (ks.map (fun k => ((l.filter (fun r => decide (key r = k))).map val).sum)).sum =
      (l.map val).sum := by
  induction l with
  | nil => simp [sum_map_const_zero ks]
  | cons x t ih =>
    rw [sum_groups_cons val key x t ks hnd (hcov x (List.mem_cons_self x t)),
      ih (fun y hy => hcov y (List.mem_cons_of_mem x hy))]
    simp

lemma sum_groups_dedup {α : Type} (val : α → ℚ) (key : α → String) (l : List α) :
    (((l.map key).dedup).map
        (fun k => ((l.filter (fun r => decide (key r = k))).map val).sum)).sum =
      (l.map val).sum :=
  sum_groups_eq_total val key l _ (List.nodup_dedup _)
    (fun _ hx => List.mem_dedup.mpr (List.mem_map_of_mem key hx))

/-! ## Claims -/

/-- C1: for every usage record, `calc_kwh` returns `value × 0.05` kWh when the
record's usage type is `image` (no division by 1000), and otherwise returns
`(value / 1000) × factor` where the factor is `0.0015` for usage type
`reasoning`, `0.0001` for `embedding`, and `0.0004` for every other usage
type (including `text` and any unrecognized type). -/
theorem C1_calc_kwh_cases (row : UsageRow) :
    (row.type = "image" → calc_kwh row = row.value * 0.05) ∧
    (row.type = "reasoning" → calc_kwh row = row.value / 1000 * 0.0015) ∧
    (row.type = "embedding" → calc_kwh row = row.value / 1000 * 0.0001) ∧
    (row.type ≠ "image" → row.type ≠ "reasoning" → row.type ≠ "embedding" →
      calc_kwh row = row.value / 1000 * 0.0004) := by
  refine ⟨?_, ?_, ?_, ?_⟩
  · intro h
    simp [calc_kwh, h, dictGet, CARBON_FACTORS, List.lookup]
  · intro h
    simp [calc_kwh, h, dictGet, CARBON_FACTORS, List.lookup]
  · intro h
    simp [calc_kwh, h, dictGet, CARBON_FACTORS, List.lookup]
  · intro h1 h2 h3
    simp [calc_kwh, h1, h2, h3, dictGet, CARBON_FACTORS, List.lookup]

/-- Witness for C1: an image record of 5 images yields 0.25 kWh and a text
record of 2000 tokens yields 0.0008 kWh. -/
theorem C1_witness :
    calc_kwh ⟨"P", "dall-e-3", "image", "GeneratedImages", 5⟩ = 0.25 ∧
    calc_kwh ⟨"P", "gpt-4", "text", "ProcessedPromptTokens", 2000⟩ = 0.0008 := by
  constructor
  · rw [(C1_calc_kwh_cases ⟨"P", "dall-e-3", "image", "GeneratedImages", 5⟩).1 rfl]
    norm_num
  · rw [(C1_calc_kwh_cases ⟨"P", "gpt-4", "text", "ProcessedPromptTokens", 2000⟩).2.2.2
      (by decide) (by decide) (by decide)]
    norm_num

/-- C2: the usage-type classification is a deterministic total function of the
lower-cased model name applying ordered substring rules with first match
winning: `"dall" → image`, then `"o1"`/`"reasoning" → reasoning`, then
`"embedding" → embedding`, else `text` (unknown models default to `text`);
in particular the four example model names classify as stated. -/
theorem C2_classify_type :
    (∀ name : String, hasSub "dall".data (py_lower name.data) = true →
      classify_type name = "image") ∧
    (∀ name : String, hasSub "dall".data (py_lower name.data) = false →
      (hasSub "o1".data (py_lower name.data) = true ∨
        hasSub "reasoning".data (py_lower name.data) = true) →
      classify_type name = "reasoning") ∧
    (∀ name : String, hasSub "dall".data (py_lower name.data) = false →
      hasSub "o1".data (py_lower name.data) = false →
      hasSub "reasoning".data (py_lower name.data) = false →
      hasSub "embedding".data (py_lower name.data) = true →
      classify_type name = "embedding") ∧
    (∀ name : String, hasSub "dall".data (py_lower name.data) = false →
      hasSub "o1".data (py_lower name.data) = false →
      hasSub "reasoning".data (py_lower name.data) = false →
      hasSub "embedding".data (py_lower name.data) = false →
      classify_type name = "text") ∧
    (∀ name : String, classify_type name = "image" ∨
      classify_type name = "reasoning" ∨ classify_type name = "embedding" ∨
      classify_type name = "text") ∧
    classify_type "dall-e-3" = "image" ∧
    classify_type "o1-preview" = "reasoning" ∧
    classify_type "text-embedding-ada-002" = "embedding" ∧
    classify_type "gpt-4" = "text" := by
  refine ⟨?_, ?_, ?_, ?_, ?_, by decide, by decide, by decide, by decide⟩
  · intro name h
    simp [classify_type, classify_chars, h]
  · intro name h1 h2
    rcases h2 with h2 | h2 <;> simp [classify_type, classify_chars, h1, h2]
  · intro name h1 h2 h3 h4
    simp [classify_type, classify_chars, h1, h2, h3, h4]
  · intro name h1 h2 h3 h4
    simp [classify_type, classify_chars, h1, h2, h3, h4]
  · intro name
    simp only [classify_type, classify_chars]
    split_ifs <;> simp

/-- Witness for C2: the rule conjuncts applied at the four example names. -/
theorem C2_witness :
    classify_type "dall-e-3" = "image" ∧ classify_type "o1-preview" = "reasoning" ∧
    classify_type "text-embedding-ada-002" = "embedding" ∧
    classify_type "gpt-4" = "text" :=
  ⟨C2_classify_type.1 "dall-e-3" (by decide),
   C2_classify_type.2.1 "o1-preview" (by decide) (Or.inl (by decide)),
   C2_classify_type.2.2.1 "text-embedding-ada-002" (by decide) (by decide)
     (by decide) (by decide),
   C2_classify_type.2.2.2.1 "gpt-4" (by decide) (by decide) (by decide) (by decide)⟩

/-- The three usage records of the end-to-end scenario in §8 of the spec. -/
def scenario_rows : List UsageRow :=
  [⟨"P", "gpt-4", "text", "ProcessedPromptTokens", 1000⟩,
   ⟨"P", "gpt-4", "text", "GeneratedTokens", 500⟩,
   ⟨"P", "dall-e-3", "image", "GeneratedImages", 2⟩]

/-- C3: for the three-record scenario at grid intensity 475 g/kWh (the
"Global Average" region), total energy is 0.1006 kWh, total carbon is
47.785 g, and tree-days (total carbon / 57.5) is within 0.001 of 0.831. -/
theorem C3_end_to_end :
    dictGet REGION_INTENSITY "Global Average" 0 = 475 ∧
    total_kwh scenario_rows = 0.1006 ∧
    total_co2 scenario_rows 475 = 47.785 ∧
    tree_days scenario_rows 475 = 47.785 / 57.5 ∧
    |tree_days scenario_rows 475 - 0.831| < 0.001 := by
  have hkwh : total_kwh scenario_rows = 0.1006 := by
    simp [scenario_rows, total_kwh, calc_kwh, dictGet, CARBON_FACTORS, List.lookup]
    norm_num
  have hco2 : total_co2 scenario_rows 475 = 47.785 := by
    simp [scenario_rows, total_co2, carbon_g, calc_kwh, dictGet, CARBON_FACTORS,
      List.lookup]
    norm_num
  have htd : tree_days scenario_rows 475 = 47.785 / 57.5 := by
    rw [tree_days, hco2, GRAMS_CO2_PER_TREE_DAY]
  refine ⟨by simp [dictGet, REGION_INTENSITY, List.lookup], hkwh, hco2, htd, ?_⟩
  rw [htd, abs_lt]
  constructor <;> norm_num

/-- C4: `convert_to_sek` returns the amount unchanged for `SEK`, amount ×
the user USD rate for `USD`, amount × 11.5 (the static table's EUR rate)
for `EUR`, and amount × the static table's rate with a silent 1.0 fallback
for any other currency; the three example conversions hold.  (The operation
is a total Lean function, so it never fails.) -/
theorem C4_convert_to_sek (amount usd_rate : ℚ) (rid : String) :
    convert_to_sek ⟨rid, amount, "SEK"⟩ usd_rate = amount ∧
    convert_to_sek ⟨rid, amount, "USD"⟩ usd_rate = amount * usd_rate ∧
    convert_to_sek ⟨rid, amount, "EUR"⟩ usd_rate = amount * 11.5 ∧
    (∀ curr : String, curr ≠ "SEK" → curr ≠ "USD" → curr ≠ "EUR" →
      convert_to_sek ⟨rid, amount, curr⟩ usd_rate =
        amount * dictGet EXCHANGE_RATES_TO_SEK curr 1.0) ∧
    convert_to_sek ⟨rid, 100, "USD"⟩ 10.8 = 1080 ∧
    convert_to_sek ⟨rid, 100, "SEK"⟩ usd_rate = 100 ∧
    convert_to_sek ⟨rid, 100, "XXX"⟩ usd_rate = 100 := by
  refine ⟨by simp [convert_to_sek], by simp [convert_to_sek], ?_, ?_, ?_,
    by simp [convert_to_sek], ?_⟩
  · simp [convert_to_sek, dictGet, EXCHANGE_RATES_TO_SEK, List.lookup]
  · intro curr h1 h2 h3
    simp [convert_to_sek, h1, h2, h3]
  · simp [convert_to_sek]
    norm_num
  · simp [convert_to_sek, dictGet, EXCHANGE_RATES_TO_SEK, List.lookup]
    norm_num

/-- Witness for C4: a `GBP` record converts by the static table rate 13.5. -/
theorem C4_witness : convert_to_sek ⟨"rid", 100, "GBP"⟩ 10.8 = 1350 := by
  rw [(C4_convert_to_sek 100 10.8 "rid").2.2.2.1 "GBP" (by decide) (by decide)
    (by decide)]
  simp [dictGet, EXCHANGE_RATES_TO_SEK, List.lookup]
  norm_num

/-- C7: per-record carbon is energy × grid intensity, total carbon is total
energy × grid intensity (so the energy figures do not depend on the region
choice), changing the region from intensity `g1 ≠ 0` to `g2` rescales every
carbon figure by `g2/g1`, and a record of 1.0 kWh (20 images) yields 475 g
at intensity 475 and 20 g at intensity 20. -/
theorem C7_carbon_scaling (rows : List UsageRow) (row : UsageRow) (g1 g2 : ℚ)
    (h : g1 ≠ 0) :
    carbon_g row g1 = calc_kwh row * g1 ∧
    total_co2 rows g1 = total_kwh rows * g1 ∧
    carbon_g row g2 = g2 / g1 * carbon_g row g1 ∧
    total_co2 rows g2 = g2 / g1 * total_co2 rows g1 ∧
    calc_kwh ⟨"P", "dall-e-3", "image", "GeneratedImages", 20⟩ = 1 ∧
    carbon_g ⟨"P", "dall-e-3", "image", "GeneratedImages", 20⟩ 475 = 475 ∧
    carbon_g ⟨"P", "dall-e-3", "image", "GeneratedImages", 20⟩ 20 = 20 := by
  have htot : ∀ g : ℚ, total_co2 rows g = total_kwh rows * g := by
    intro g
    simp only [total_co2, carbon_g, total_kwh]
    rw [← List.sum_map_mul_right]
  have hone : calc_kwh ⟨"P", "dall-e-3", "image", "GeneratedImages", 20⟩ = 1 := by
    simp [calc_kwh, dictGet, CARBON_FACTORS, List.lookup]
    norm_num
  refine ⟨rfl, htot g1, ?_, ?_, hone, ?_, ?_⟩
  · rw [carbon_g, carbon_g]
    field_simp
    ring
  · rw [htot g1, htot g2]
    field_simp
    ring
  · rw [carbon_g, hone]; norm_num
  · rw [carbon_g, hone]; norm_num

/-- Witness for C7: moving from the Global Average region (475) to the
Sweden region (20) rescales the scenario's total carbon by 20/475. -/
theorem C7_witness :
    total_co2 scenario_rows 20 = 20 / 475 * total_co2 scenario_rows 475 :=
  (C7_carbon_scaling scenario_rows ⟨"P", "gpt-4", "text", "ProcessedPromptTokens", 1000⟩
    475 20 (by norm_num)).2.2.2.1

lemma filter_filter_and {α : Type} (A B : α → Bool) (l : List α) :
    (l.filter A).filter B = l.filter (fun x => A x && B x) := by
  induction l with
  | nil => rfl
  | cons x t ih =>
    by_cases hA : A x <;> by_cases hB : B x <;>
      simp [List.filter_cons, hA, hB, ih]

/-- C8: in the per-project usage aggregation, input tokens sum the values of
the project's records with metric exactly `ProcessedPromptTokens`, output
tokens sum the values with metric in `{GeneratedTokens,
GeneratedCompletionTokens}`, and a `GeneratedCompletionTokens` record
contributes its value to the output-token sum and leaves the input-token sum
unchanged. -/
theorem C8_token_split (rows : List UsageRow) (g : ℚ) (p : String) (r : UsageRow)
    (hp : r.project = p) (hm : r.metric = "GeneratedCompletionTokens") :
    (usage_agg_row rows g p).inputTokens =
      ((rows.filter (fun x => decide (x.project = p ∧
        x.metric = "ProcessedPromptTokens"))).map (fun x => x.value)).sum ∧
    (usage_agg_row rows g p).outputTokens =
      ((rows.filter (fun x => decide (x.project = p ∧
        (x.metric = "GeneratedTokens" ∨
          x.metric = "GeneratedCompletionTokens")))).map (fun x => x.value)).sum ∧
    (usage_agg_row (r :: rows) g p).outputTokens =
      r.value + (usage_agg_row rows g p).outputTokens ∧
    (usage_agg_row (r :: rows) g p).inputTokens =
      (usage_agg_row rows g p).inputTokens := by
  refine ⟨?_, ?_, ?_, ?_⟩
  · simp only [usage_agg_row, filter_filter_and]
    congr 1
    apply congrArg
    apply List.filter_congr
    intro x _
    simp
  · simp only [usage_agg_row, filter_filter_and]
    congr 1
    apply congrArg
    apply List.filter_congr
    intro x _
    simp
  · simp [usage_agg_row, List.filter_cons, hp, hm]
  · simp [usage_agg_row, List.filter_cons, hp, hm]

/-- Witness for C8: a single `GeneratedCompletionTokens` record of value 7
adds 7 to the project's output tokens and nothing to its input tokens. -/
theorem C8_witness :
    (usage_agg_row [⟨"P", "gpt-4", "text", "GeneratedCompletionTokens", 7⟩] 475
      "P").outputTokens =
      7 + (usage_agg_row [] 475 "P").outputTokens ∧
    (usage_agg_row [⟨"P", "gpt-4", "text", "GeneratedCompletionTokens", 7⟩] 475
      "P").inputTokens = (usage_agg_row [] 475 "P").inputTokens := by
  have h := C8_token_split [] 475 "P"
    ⟨"P", "gpt-4", "text", "GeneratedCompletionTokens", 7⟩ rfl rfl
  exact ⟨h.2.2.1, h.2.2.2⟩

/-- C9: on empty input the aggregation does not raise: with usage rows but no
cost rows, the total cost in SEK is 0 and every project-summary row carries
`Cost_SEK = 0`; with no usage rows, the per-model and per-project summaries
are empty and the energy/carbon/tree-day totals are 0. -/
theorem C9_empty_inputs (inv : List InvItem) (rows : List UsageRow) (g usd_rate : ℚ) :
    total_cost_sek [] usd_rate = 0 ∧
    (df_project_summary inv rows [] g usd_rate).all
      (fun s => decide (s.costSEK = 0)) = true ∧
    df_usage_agg [] g = [] ∧
    df_model [] g = [] ∧
    df_project_summary inv [] [] g usd_rate = [] ∧
    total_kwh [] = 0 ∧
    total_co2 [] g = 0 ∧
    tree_days [] g = 0 := by
  have hca : df_cost_agg inv ([] : List CostRow) usd_rate = [] := rfl
  refine ⟨rfl, ?_, rfl, rfl, rfl, rfl, rfl, ?_⟩
  · rw [List.all_eq_true]
    intro s hs
    simp only [df_project_summary, hca, List.isEmpty_nil, if_true] at hs
    rcases List.mem_map.mp hs with ⟨u, _, rfl⟩
    exact decide_eq_true rfl
  · simp [tree_days, total_co2]

/-- C10: group sums partition the totals: for every enriched usage collection
and every grouping key, the per-group carbon, energy and value sums add up to
the headline totals; in particular the `df_model` and `df_usage_agg` group
summaries add up to the total carbon and total value. -/
theorem C10_group_totals (rows : List UsageRow) (g : ℚ) (key : UsageRow → String) :
    ((group_keys rows key).map (group_sum rows key (fun r => carbon_g r g))).sum =
      total_co2 rows g ∧
    ((group_keys rows key).map (group_sum rows key calc_kwh)).sum = total_kwh rows ∧
    ((group_keys rows key).map (group_sum rows key (fun r => r.value))).sum =
      (rows.map (fun r => r.value)).sum ∧
    ((df_model rows g).map (fun x => x.2.1)).sum = total_co2 rows g ∧
    ((df_model rows g).map (fun x => x.2.2)).sum = (rows.map (fun r => r.value)).sum ∧
    ((df_usage_agg rows g).map (fun u => u.carbonTotal)).sum = total_co2 rows g := by
  refine ⟨?_, ?_, ?_, ?_, ?_, ?_⟩
  · exact sum_groups_dedup (fun r => carbon_g r g) key rows
  · exact sum_groups_dedup calc_kwh key rows
  · exact sum_groups_dedup (fun r => r.value) key rows
  · simp only [df_model, List.map_map, Function.comp]
    exact sum_groups_dedup (fun r => carbon_g r g) (fun r => r.model) rows
  · simp only [df_model, List.map_map, Function.comp]
    exact sum_groups_dedup (fun r => r.value) (fun r => r.model) rows
  · simp only [df_usage_agg, List.map_map, Function.comp]
    exact sum_groups_dedup (fun r => carbon_g r g) (fun r => r.project) rows

/-- Counterexample to C6 as stated: with the nonempty inventory lookup
`[("idA", "ProjA")]`, a cost record whose resource id
`/subscriptions/s/resourceGroups/rg1/providers/Microsoft.CognitiveServices/accounts/res1`
has no entry in the lookup is labeled `"Unknown"` directly, even though the
parsed resource-group segment `"rg1"` is available — the claimed per-record
fallback to the fourth slash-delimited segment does not happen. -/
theorem C6_counterexample :
    cost_project_name [⟨"idA", "ProjA"⟩]
      "/subscriptions/s/resourceGroups/rg1/providers/Microsoft.CognitiveServices/accounts/res1" =
      "Unknown" ∧
    rg_segment
      "/subscriptions/s/resourceGroups/rg1/providers/Microsoft.CognitiveServices/accounts/res1" =
      "rg1" ∧
    cost_project_name [⟨"idA", "ProjA"⟩]
      "/subscriptions/s/resourceGroups/rg1/providers/Microsoft.CognitiveServices/accounts/res1" ≠
    rg_segment
      "/subscriptions/s/resourceGroups/rg1/providers/Microsoft.CognitiveServices/accounts/res1" := by
  refine ⟨by decide, by decide, by decide⟩

/-- C6 (amended): the project label of a cost record uses the inventory
lookup only when the inventory is nonempty, labelling lookup misses
`"Unknown"` directly; the parsed fourth-slash-segment fallback applies only
when the inventory is empty; and every cost record is included in the
labelled output (one output row per record), not dropped. -/
theorem C6_project_label (inv : List InvItem) (rid : String) (costs : List CostRow)
    (usd_rate : ℚ) :
    (inv = [] → cost_project_name inv rid = rg_segment rid) ∧
    (inv ≠ [] → List.lookup rid (id_to_proj inv) = none →
      cost_project_name inv rid = "Unknown") ∧
    (∀ proj : String, List.lookup rid (id_to_proj inv) = some proj →
      cost_project_name inv rid = proj) ∧
    (cost_named inv costs usd_rate).length = costs.length := by
  refine ⟨?_, ?_, ?_, ?_⟩
  · intro h
    subst h
    simp [cost_project_name]
  · intro h1 h2
    have hie : inv.isEmpty = false := by
      cases inv with
      | nil => exact absurd rfl h1
      | cons a l => rfl
    simp [cost_project_name, hie, h2]
  · intro proj h
    cases inv with
    | nil => simp [id_to_proj] at h
    | cons a l => simp [cost_project_name, h]
  · simp [cost_named]

/-- Witness for C6 (amended): a mapped resource id takes its inventory
project label, and an empty inventory falls back to the parsed segment. -/
theorem C6_witness :
    cost_project_name [⟨"idA", "ProjA"⟩] "idA" = "ProjA" ∧
    cost_project_name []
      "/subscriptions/s/resourceGroups/rg9/providers/x/accounts/r" = "rg9" := by
  constructor
  · exact (C6_project_label [⟨"idA", "ProjA"⟩] "idA" [] 1).2.2.1 "ProjA" (by decide)
  · rw [(C6_project_label []
      "/subscriptions/s/resourceGroups/rg9/providers/x/accounts/r" [] 1).1 rfl]
    decide

lemma projName_mem_of_mem_cost_agg {inv : List InvItem} {costs : List CostRow}
    {usd_rate : ℚ} {c : CostAgg} (hc : c ∈ df_cost_agg inv costs usd_rate) :
    c.projName ∈ (cost_named inv costs usd_rate).map Prod.fst := by
  rcases List.mem_map.mp hc with ⟨p, hp, rfl⟩
  exact List.mem_dedup.mp hp

lemma proj_mem_of_mem_usage_agg {rows : List UsageRow} {g : ℚ} {u : UsageAgg}
    (hu : u ∈ df_usage_agg rows g) : u.proj ∈ rows.map (fun r => r.project) := by
  rcases List.mem_map.mp hu with ⟨p, hp, rfl⟩
  exact List.mem_dedup.mp hp

/-- C5: the project summary outer-joins the per-project cost aggregates with
the per-project usage aggregates: whenever project `p` has cost records but
no usage records, and project `q` has usage records but no cost records,
both appear in the summary, with the missing side's metrics (usage metrics
for `p`, cost in SEK for `q`) defaulted to zero rather than the row being
dropped. -/
theorem C5_outer_join (inv : List InvItem) (rows : List UsageRow)
    (costs : List CostRow) (g usd_rate : ℚ) (p q : String)
    (hpC : p ∈ (cost_named inv costs usd_rate).map Prod.fst)
    (hpU : p ∉ rows.map (fun r => r.project))
    (hqU : q ∈ rows.map (fun r => r.project))
    (hqC : q ∉ (cost_named inv costs usd_rate).map Prod.fst) :
    (∃ s ∈ df_project_summary inv rows costs g usd_rate,
      s.projName = p ∧ s.carbonTotal = 0 ∧ s.inputTokens = 0 ∧
        s.outputTokens = 0) ∧
    (∃ s ∈ df_project_summary inv rows costs g usd_rate,
      s.projName = q ∧ s.costSEK = 0) := by
  have hcmem :
      (⟨p, (((cost_named inv costs usd_rate).filter
        (fun c => decide (c.1 = p))).map Prod.snd).sum⟩ : CostAgg) ∈
        df_cost_agg inv costs usd_rate :=
    List.mem_map_of_mem _ (List.mem_dedup.mpr hpC)
  have hne : (df_cost_agg inv costs usd_rate).isEmpty = false := by
    rcases h : df_cost_agg inv costs usd_rate with _ | ⟨a, l⟩
    · rw [h] at hcmem
      cases hcmem
    · rfl
  have hsummary : df_project_summary inv rows costs g usd_rate =
      ((df_cost_agg inv costs usd_rate).map (fun c =>
        match (df_usage_agg rows g).find? (fun u => decide (u.proj = c.projName)) with
        | some u => ⟨c.projName, c.costSEK, u.carbonTotal, u.inputTokens,
            u.outputTokens⟩
        | none => ⟨c.projName, c.costSEK, 0, 0, 0⟩)) ++
      (((df_usage_agg rows g).filter (fun u =>
          ((df_cost_agg inv costs usd_rate).find?
            (fun c => decide (c.projName = u.proj))).isNone)).map
        (fun u => ⟨u.proj, 0, u.carbonTotal, u.inputTokens, u.outputTokens⟩)) := by
    simp only [df_project_summary, hne, Bool.false_eq_true, if_false]
  constructor
  · have hnone : (df_usage_agg rows g).find? (fun u => decide (u.proj = p)) = none := by
      apply List.find?_eq_none.mpr
      intro u hu
      simp only [decide_eq_true_eq]
      intro h
      exact hpU (h ▸ proj_mem_of_mem_usage_agg hu)
    refine ⟨⟨p, (((cost_named inv costs usd_rate).filter
        (fun c => decide (c.1 = p))).map Prod.snd).sum, 0, 0, 0⟩, ?_, rfl, rfl, rfl, rfl⟩
    rw [hsummary]
    apply List.mem_append_left
    have himg := List.mem_map_of_mem (fun c : CostAgg =>
      (match (df_usage_agg rows g).find? (fun u => decide (u.proj = c.projName)) with
        | some u => (⟨c.projName, c.costSEK, u.carbonTotal, u.inputTokens,
            u.outputTokens⟩ : ProjSummary)
        | none => ⟨c.projName, c.costSEK, 0, 0, 0⟩)) hcmem
    simpa only [hnone] using himg
  · have hqnone : (df_cost_agg inv costs usd_rate).find?
        (fun c => decide (c.projName = q)) = none := by
      apply List.find?_eq_none.mpr
      intro c hc
      simp only [decide_eq_true_eq]
      intro h
      exact hqC (h ▸ projName_mem_of_mem_cost_agg hc)
    have humem : usage_agg_row rows g q ∈ df_usage_agg rows g :=
      List.mem_map_of_mem _ (List.mem_dedup.mpr hqU)
    refine ⟨⟨q, 0, (usage_agg_row rows g q).carbonTotal,
      (usage_agg_row rows g q).inputTokens,
      (usage_agg_row rows g q).outputTokens⟩, ?_, rfl, rfl⟩
    rw [hsummary]
    apply List.mem_append_right
    have hfil : usage_agg_row rows g q ∈ (df_usage_agg rows g).filter (fun u =>
        ((df_cost_agg inv costs usd_rate).find?
          (fun c => decide (c.projName = u.proj))).isNone) := by
      apply List.mem_filter.mpr
      refine ⟨humem, ?_⟩
      have hproj : (usage_agg_row rows g q).proj = q := rfl
      rw [hproj, hqnone]
      rfl
    exact List.mem_map_of_mem _ hfil

/-- Witness for C5: with one cost record mapping to project `CostProj` and
one usage record under project `UsageProj`, both projects appear in the
summary with the missing side zeroed. -/
theorem C5_witness :
    (∃ s ∈ df_project_summary [⟨"idA", "CostProj"⟩]
        [⟨"UsageProj", "gpt-4", "text", "ProcessedPromptTokens", 1000⟩]
        [⟨"idA", 100, "SEK"⟩] 475 10.8,
      s.projName = "CostProj" ∧ s.carbonTotal = 0 ∧ s.inputTokens = 0 ∧
        s.outputTokens = 0) ∧
    (∃ s ∈ df_project_summary [⟨"idA", "CostProj"⟩]
        [⟨"UsageProj", "gpt-4", "text", "ProcessedPromptTokens", 1000⟩]
        [⟨"idA", 100, "SEK"⟩] 475 10.8,
      s.projName = "UsageProj" ∧ s.costSEK = 0) :=
  C5_outer_join [⟨"idA", "CostProj"⟩]
    [⟨"UsageProj", "gpt-4", "text", "ProcessedPromptTokens", 1000⟩]
    [⟨"idA", 100, "SEK"⟩] 475 10.8 "CostProj" "UsageProj"
    (by decide) (by decide) (by decide) (by decide)

end EcoMonitor
